import Mathlib

/-!
Verification of the DroneASM compiler front end and register-machine VM.

Shallow embedding of the Python sources:
  drone_asm/asm_compiler/asm_tokenizer.py
  drone_asm/asm_compiler/asm_constants.py
  drone_asm/asm_compiler/asm_validator.py
  drone_asm/asm_compiler/asm_compile.py
  drone_asm/drone_virtual_machine.py
  drone_asm/drone.py (SimulatedDrone)

Python floats are modelled as exact rationals; the simulated drone's
trigonometry is modelled over the reals.  Python exceptions are modelled as
an explicit error type threaded through `Except` / result pairs.
-/

/-- Python exception kinds observable from the embedded code.  The first five
mirror the exception classes the repository defines; the remaining ones mirror
builtin Python exceptions that the code can raise and never catches. -/
inductive PyExc
  | tokenizerError (msg : String)   -- TokenizerErrorException
  | validationError (msg : String)  -- ValidationErrorException
  | labelNotFound (msg : String)    -- LabelNotFoundException
  | softwareError (msg : String)    -- RuntimeSoftwareErrorException
  | hardwareError (msg : String)    -- RuntimeHardwareErrorException
  | typeError                       -- builtin TypeError
  | indexError                      -- builtin IndexError
  | keyError                        -- builtin KeyError
  | zeroDivisionError               -- builtin ZeroDivisionError
  | attributeError                  -- builtin AttributeError
deriving DecidableEq, Repr

/-- Token kinds, exactly the strings used as `token_type` in asm_constants.py
(TOKEN_TYPES plus the post-hoc "Command" reclassification). -/
inductive TokType
  | PicReg | NumReg | String | IntNumber | FloatNumber | Identifier | Label | Command
deriving DecidableEq, Repr

/-- Token data class from asm_constants.py. -/
structure Token where
  token_type : TokType
  value : String
deriving DecidableEq, Repr

/-- ARGS_DICT bucket for key 0 (asm_constants.py lines 31-39). -/
def ARGS_DICT_0 : List String := ["NOP", "HALT", "JUMP_RETURN", "POP_RETURN", "TAKEOFF", "LAND"]

/-- ARGS_DICT bucket for key 1. -/
def ARGS_DICT_1 : List String :=
  ["PUSH_NUM", "PUSH_RETURN", "PUSH_PIC", "POP_NUM", "POP_PIC", "JUMP",
   "FORWARD", "BACKWARD", "LEFT", "RIGHT", "UP", "DOWN", "ROTATE_CW", "ROTATE_CCW",
   "DISPLAY", "TAKE_PIC"]

/-- ARGS_DICT bucket for key 2. -/
def ARGS_DICT_2 : List String := ["STORE", "COPY", "COPY_PIC", "LOAD_PIC"]

/-- ARGS_DICT bucket for key 3. -/
def ARGS_DICT_3 : List String :=
  ["BRANCH_EQ", "BRANCH_NE", "BRANCH_GT", "BRANCH_LT", "BRANCH_GE", "BRANCH_LE",
   "ADD", "SUB", "MULT", "DIV", "IDIV", "RDIV", "DETECT_FACE", "MATCH_FACE"]

/-- ARGS_DICT is a plain Python dict with keys 0..3; subscripting it with any
other key raises KeyError, modelled here by `none`. -/
def ARGS_DICT (n : Nat) : Option (List String) :=
  match n with
  | 0 => some ARGS_DICT_0
  | 1 => some ARGS_DICT_1
  | 2 => some ARGS_DICT_2
  | 3 => some ARGS_DICT_3
  | _ => none

/-- COMMAND_LIST = chain.from_iterable(ARGS_DICT.values()), in key order. -/
def COMMAND_LIST : List String := ARGS_DICT_0 ++ ARGS_DICT_1 ++ ARGS_DICT_2 ++ ARGS_DICT_3

/-- detect_command (asm_tokenizer.py lines 46-50): an Identifier whose text is
a known opcode name is reclassified to Command. -/
def detect_command (t : Token) : Token :=
  if t.token_type = TokType.Identifier ∧ t.value ∈ COMMAND_LIST then
    { t with token_type := TokType.Command }
  else t

/-- Python str.isspace for the ASCII range (the only characters that reach the
tokenizer after preprocessing). -/
def pyIsSpace (c : Char) : Bool :=
  c == ' ' || c == '\t' || c == '\n' || c == '\x0d' || c == '\x0b' || c == '\x0c'

/-- Python str.isalpha restricted to ASCII letters (source lines are ASCII). -/
def pyIsAlpha (c : Char) : Bool := c.isAlpha

/-- Python str.isalnum restricted to ASCII (letters and digits). -/
def pyIsAlnum (c : Char) : Bool := c.isAlpha || c.isDigit

/-- Python str.strip: drop leading and trailing whitespace. -/
def pyStrip (cs : List Char) : List Char :=
  ((cs.dropWhile pyIsSpace).reverse.dropWhile pyIsSpace).reverse

/-- Python str.upper, character-wise (ASCII). -/
def pyUpper (cs : List Char) : List Char := cs.map Char.toUpper

/-- States of the tokenizer's finite state machine (asm_tokenizer.py). -/
inductive FState
  | S | Reg | PicReg1 | PicReg2 | NumReg1 | NumReg2 | Str1 | Str2 | Num1 | Num2 | Id | Lbl
deriving DecidableEq, Repr

/-- type_dict of asm_tokenizer.py: accepting states and the token kind each
one commits. -/
def type_dict (st : FState) : Option TokType :=
  match st with
  | .PicReg2 => some .PicReg
  | .NumReg2 => some .NumReg
  | .Str2 => some .String
  | .Num1 => some .IntNumber
  | .Num2 => some .FloatNumber
  | .Id => some .Identifier
  | .Lbl => some .Label
  | _ => none

/-- One non-whitespace character step of the tokenizer FSM: returns the new
state and the characters to append to the current token, or the tokenizer
error the source raises.  Mirrors the `match state` block of tokenize
(asm_tokenizer.py lines 83-160); states with no arm there (Str2, Lbl, ...)
fall into the wildcard raising "Unknown state.". -/
def fsmChar (st : FState) (c : Char) : Except PyExc (FState × List Char) :=
  match st with
  | .S =>
      if c == '$' then .ok (.Reg, [])
      else if c == '"' then .ok (.Str1, [])
      else if c.isDigit || c == '+' || c == '-' then .ok (.Num1, [c])
      else if pyIsAlpha c then .ok (.Id, [c])
      else .error (.tokenizerError "Unknown/incorrect symbol in token.")
  | .Reg =>
      if c == 'P' then .ok (.PicReg1, [])
      else if c == 'R' then .ok (.NumReg1, [])
      else .error (.tokenizerError "Unknown/incorrect symbol in register token.")
  | .PicReg1 =>
      if c.isDigit then .ok (.PicReg2, [c])
      else .error (.tokenizerError "Unknown/incorrect symbol picture in register token.")
  | .PicReg2 =>
      if c.isDigit then .ok (.PicReg2, [c])
      else .error (.tokenizerError "Unknown/incorrect symbol in picture register token.")
  | .NumReg1 =>
      if c.isDigit then .ok (.NumReg2, [c])
      else .error (.tokenizerError "Unknown/incorrect symbol in register token.")
  | .NumReg2 =>
      if c.isDigit then .ok (.NumReg2, [c])
      else .error (.tokenizerError "Unknown/incorrect symbol in register token.")
  | .Str1 =>
      if c == '"' then .ok (.Str2, [])
      else .ok (.Str1, [c])
  | .Num1 =>
      if c == '.' then .ok (.Num2, [c])
      else if c.isDigit then .ok (.Num1, [c])
      else .error (.tokenizerError "Unknown/incorrect symbol in number token.")
  | .Num2 =>
      if c.isDigit then .ok (.Num2, [c])
      else .error (.tokenizerError "Unknown/incorrect symbol in number token.")
  | .Id =>
      if pyIsAlnum c || c == '_' then .ok (.Id, [c])
      else if c == ':' then .ok (.Lbl, [])
      else .error (.tokenizerError "Unknown/incorrect symbol in identifier token.")
  | _ => .error (.tokenizerError "Unknown state.")

/-- Character loop of tokenize: whitespace outside Str1 commits the current
token when the state is accepting (and is skipped either way); other
characters drive the FSM.  At end of input a final accepting state commits,
any other state raises "Unknown/incomplete token.". -/
def fsmRun : List Char → FState → List Char → List Token → Except PyExc (List Token)
  | [], st, cur, acc =>
      match type_dict st with
      | some tt => .ok (acc ++ [⟨tt, String.mk cur⟩])
      | none => .error (.tokenizerError "Unknown/incomplete token.")
  | c :: rest, st, cur, acc =>
      if pyIsSpace c && !(st == FState.Str1) then
        match type_dict st with
        | some tt => fsmRun rest .S [] (acc ++ [⟨tt, String.mk cur⟩])
        | none => fsmRun rest st cur acc
      else
        match fsmChar st c with
        | .error e => .error e
        | .ok (st', app) => fsmRun rest st' (cur ++ app) acc

/-- tokenize (asm_tokenizer.py lines 53-168): strip, early-return [] on empty,
upper-case the WHOLE line (string literal bodies included), run the FSM, then
reclassify identifiers that name opcodes as commands. -/
def tokenize (line : String) : Except PyExc (List Token) :=
  let cs := pyStrip line.toList
  if cs = [] then .ok []
  else
    match fsmRun (pyUpper cs) .S [] [] with
    | .error e => .error e
    | .ok toks => .ok (toks.map detect_command)

/-- _test_numerical (asm_validator.py). -/
def test_numerical (t : Token) : Bool :=
  t.token_type == TokType.IntNumber || t.token_type == TokType.FloatNumber

/-- _test_num_register. -/
def test_num_register (t : Token) : Bool := t.token_type == TokType.NumReg

/-- _test_pic_register. -/
def test_pic_register (t : Token) : Bool := t.token_type == TokType.PicReg

/-- _test_identifier. -/
def test_identifier (t : Token) : Bool := t.token_type == TokType.Identifier

/-- _test_string. -/
def test_string (t : Token) : Bool := t.token_type == TokType.String

/-- Python list indexing: out of range raises IndexError. -/
def getTok (ts : List Token) (i : Nat) : Except PyExc Token :=
  match ts.get? i with
  | some t => .ok t
  | none => .error .indexError

/-- Error raised by every argument-type mismatch in validate_line. -/
def argTypeMsg : String := "Invalid argument type(s) for specified command."

/-- Argument-type block of validate_line (asm_validator.py lines 61-105),
the `match tokens[label_offset].value` statement applied to the argument
tokens.  The source arm `case "PUSH_PIC", "POP_PIC", "TAKE_PIC":` (line 71)
is a Python SEQUENCE pattern, and a str subject never matches a sequence
pattern, so that arm is unreachable: PUSH_PIC, POP_PIC and TAKE_PIC receive
no argument-type check and fall through to the implicit no-match end of the
match statement, as does every command without an arm (POP_NUM's own arm is
separate and live). -/
def checkArgTypes (c : String) (args : List Token) : Except PyExc Unit :=
  if c ∈ ["PUSH_NUM", "FORWARD", "BACKWARD", "LEFT", "RIGHT", "UP", "DOWN", "ROTATE_CW", "ROTATE_CCW"] then
    match getTok args 0 with
    | .error e => .error e
    | .ok a0 =>
        if !(test_num_register a0 || test_numerical a0) then .error (.validationError argTypeMsg)
        else .ok ()
  else if c ∈ ["PUSH_RETURN", "JUMP"] then
    match getTok args 0 with
    | .error e => .error e
    | .ok a0 =>
        if !(test_identifier a0) then .error (.validationError argTypeMsg) else .ok ()
  else if c = "POP_NUM" then
    match getTok args 0 with
    | .error e => .error e
    | .ok a0 =>
        if !(test_num_register a0) then .error (.validationError argTypeMsg) else .ok ()
  else if c = "DISPLAY" then
    match getTok args 0 with
    | .error e => .error e
    | .ok a0 =>
        if !(test_string a0 || test_num_register a0 || test_numerical a0 || test_pic_register a0) then
          .error (.validationError argTypeMsg)
        else .ok ()
  else if c = "STORE" then
    match getTok args 0, getTok args 1 with
    | .ok a0, .ok a1 =>
        if !(test_numerical a0 && test_num_register a1) then .error (.validationError argTypeMsg)
        else .ok ()
    | .error e, _ => .error e
    | _, .error e => .error e
  else if c = "COPY" then
    match getTok args 0, getTok args 1 with
    | .ok a0, .ok a1 =>
        if !(test_num_register a0 && test_num_register a1) then .error (.validationError argTypeMsg)
        else .ok ()
    | .error e, _ => .error e
    | _, .error e => .error e
  else if c = "COPY_PIC" then
    match getTok args 0, getTok args 1 with
    | .ok a0, .ok a1 =>
        if !(test_pic_register a0 && test_pic_register a1) then .error (.validationError argTypeMsg)
        else .ok ()
    | .error e, _ => .error e
    | _, .error e => .error e
  else if c ∈ ["BRANCH_EQ", "BRANCH_NE", "BRANCH_GT", "BRANCH_LT", "BRANCH_GE", "BRANCH_LE"] then
    match getTok args 0 with
    | .error e => .error e
    | .ok a0 =>
        if !(test_num_register a0 || test_numerical a0) then .error (.validationError argTypeMsg)
        else
          match getTok args 1 with
          | .error e => .error e
          | .ok a1 =>
              if !(test_num_register a1 || test_numerical a1) then .error (.validationError argTypeMsg)
              else
                match getTok args 2 with
                | .error e => .error e
                | .ok a2 =>
                    if !(test_identifier a2) then .error (.validationError argTypeMsg) else .ok ()
  else if c ∈ ["ADD", "SUB", "MULT", "DIV", "IDIV", "RDIV"] then
    match getTok args 0 with
    | .error e => .error e
    | .ok a0 =>
        if !(test_num_register a0 || test_numerical a0) then .error (.validationError argTypeMsg)
        else
          match getTok args 1 with
          | .error e => .error e
          | .ok a1 =>
              if !(test_num_register a1 || test_numerical a1) then .error (.validationError argTypeMsg)
              else
                match getTok args 2 with
                | .error e => .error e
                | .ok a2 =>
                    if !(test_num_register a2) then .error (.validationError argTypeMsg) else .ok ()
  else .ok ()

/-- validate_line (asm_validator.py lines 49-105).  `tokens[0]` and
`tokens[label_offset]` are plain Python list subscripts, so a list that is too
short raises an uncaught IndexError; `ARGS_DICT[...]` on a missing key raises
an uncaught KeyError. -/
def validate_line (tokens : List Token) : Except PyExc Unit :=
  match tokens.get? 0 with
  | none => .error .indexError
  | some t0 =>
      let off := if t0.token_type = TokType.Label then 1 else 0
      match tokens.get? off with
      | none => .error .indexError
      | some cmd =>
          if cmd.token_type ≠ TokType.Command then
            .error (.validationError "Line does not start with a command.")
          else
            match ARGS_DICT (tokens.length - (off + 1)) with
            | none => .error .keyError
            | some bucket =>
                if cmd.value ∈ bucket then checkArgTypes cmd.value (tokens.drop (off + 1))
                else .error (.validationError "Invalid number of arguments for specified command.")

/-- The canonical no-op instruction token (_NOP_TOKEN, asm_constants.py). -/
def nopToken : Token := ⟨TokType.Command, "NOP"⟩

/-- Program table (asm_constants.py lines 68-102).  The Python dict label_map
is modelled as an association list where insertion prepends and lookup takes
the first hit, which reproduces dict overwrite semantics. -/
structure Program where
  label_map : List (String × Nat) := []
  tokenized_lines : List (List Token) := []
deriving DecidableEq, Repr

/-- Program.add_line: empty lines store a no-op; a leading label is recorded
against the current line count and dropped (a bare label also stores a
no-op). -/
def Program.add_line (p : Program) (line : List Token) : Program :=
  match line with
  | [] => { p with tokenized_lines := p.tokenized_lines ++ [[nopToken]] }
  | t0 :: rest =>
      if t0.token_type = TokType.Label then
        { p with
          label_map := (t0.value, p.tokenized_lines.length) :: p.label_map,
          tokenized_lines := p.tokenized_lines ++ [if rest = [] then [nopToken] else rest] }
      else { p with tokenized_lines := p.tokenized_lines ++ [line] }

/-- Program.get_line (a direct accessor; the interpreter guards the bound). -/
def Program.get_line (p : Program) (i : Nat) : Option (List Token) :=
  p.tokenized_lines.get? i

/-- Program.line_count. -/
def Program.line_count (p : Program) : Nat := p.tokenized_lines.length

/-- Program.label_lookup: raises LabelNotFoundException when absent. -/
def Program.label_lookup (p : Program) (label : String) : Except PyExc Nat :=
  match p.label_map.find? (fun e => e.1 == label) with
  | some e => .ok e.2
  | none => .error (.labelNotFound ("Cannot find label " ++ label ++ "."))

/-- preprocess (asm_compile.py lines 16-22): cut a # comment, upper-case,
strip. -/
def preprocess (line : String) : String :=
  let cs := line.toList.takeWhile (fun c => c ≠ '#')
  String.mk (pyStrip (pyUpper cs))

/-- compile catches TokenizerErrorException and ValidationErrorException to
prefix the 1-based line number; any other exception (IndexError, KeyError)
propagates unchanged. -/
def annotateLine (n : Nat) (e : PyExc) : PyExc :=
  match e with
  | .tokenizerError m => .tokenizerError ("Line " ++ toString n ++ ": " ++ m)
  | .validationError m => .validationError ("Line " ++ toString n ++ ": " ++ m)
  | e => e

/-- Loop body of compile (asm_compile.py lines 25-41). -/
def compileAux : List String → Nat → Program → Except PyExc Program
  | [], _, p => .ok p
  | l :: rest, n, p =>
      match tokenize (preprocess l) with
      | .error e => .error (annotateLine n e)
      | .ok toks =>
          match validate_line toks with
          | .error e => .error (annotateLine n e)
          | .ok _ => compileAux rest (n + 1) (p.add_line toks)

/-- compile (asm_compile.py): preprocess, tokenize, validate and store each
source line in order, numbering lines from 1. -/
def compile (lines : List String) : Except PyExc Program :=
  compileAux lines 1 {}

/-- Digit string to natural number (Python int parsing, digits only). -/
def digitsToNat (cs : List Char) : Nat :=
  cs.foldl (fun a c => a * 10 + (c.toNat - 48)) 0

/-- Python int(s) on the strings the tokenizer can produce for number and
register tokens: an optional single leading sign followed by digits.  (A bare
sign such as "+" would raise ValueError in Python; no validated program
reaches int() with such a string.) -/
def pyInt (s : String) : Int :=
  match s.toList with
  | '-' :: rest => -(digitsToNat rest : Int)
  | '+' :: rest => (digitsToNat rest : Int)
  | cs => (digitsToNat cs : Int)

/-- Unsigned decimal with optional fractional part, as an exact rational. -/
def parseUnsignedRat (cs : List Char) : ℚ :=
  let ip := cs.takeWhile Char.isDigit
  let rest := cs.drop ip.length
  let fp := match rest with
    | '.' :: f => f
    | _ => []
  (digitsToNat ip : ℚ) + (digitsToNat fp : ℚ) / ((10 : ℚ) ^ fp.length)

/-- Python float(s) on tokenizer float strings, modelled exactly over ℚ
(binary floating point is out of the model; all claims use values that are
exact either way). -/
def pyFloat (s : String) : ℚ :=
  match s.toList with
  | '-' :: rest => -(parseUnsignedRat rest)
  | '+' :: rest => parseUnsignedRat rest
  | cs => parseUnsignedRat cs

/-- An image frame.  Frames are opaque handles to the core (spec: picture
registers hold opaque image handles); the simulated drone's get_frame returns
the same canonical zero image every time. -/
inductive Frame
  | zeros
deriving DecidableEq, Repr

/-- A face detection, opaque to the core. -/
structure FaceDet where
  id : Nat
deriving DecidableEq, Repr

/-- A face encoding, opaque to the core. -/
structure FaceEnc where
  id : Nat
deriving DecidableEq, Repr

/-- A Python value that can sit in a numeric register or on the numeric
stack: an int, a float, or (through the PUSH_PIC quirk followed by POP_NUM)
a picture-register content. -/
inductive Value
  | int (z : Int)
  | float (q : ℚ)
  | pic (f : Option Frame)
deriving DecidableEq, Repr

/-- Python
  dynamic values returned by get_state: the simulated drone returns its
location, a plain list of numbers; the live drone returns a dict of telemetry
strings. -/
inductive PyVal
  | list (xs : List ℝ)
  | dict (entries : List (String × String))
  | str (s : String)

/-- Python subscripting `v[key]` with a str key: valid on a dict (KeyError if
the key is absent), a TypeError on a list ("list indices must be integers or
slices, not str"). -/
def PyVal.getItemStr : PyVal → String → Except PyExc PyVal
  | .list _, _ => .error .typeError
  | .str _, _ => .error .typeError
  | .dict es, k =>
      match es.find? (fun e => e.1 == k) with
      | some e => .ok (.str e.2)
      | none => .error .keyError

/-- SimulatedDrone state (drone.py lines 416-478): location [x, y, z], facing
in radians, plus the connected/flying flags. -/
structure SimulatedDrone where
  x : ℝ
  y : ℝ
  z : ℝ
  facing : ℝ
  connected : Bool
  flying : Bool

/-- SimulatedDrone.__init__: location [0, 0, 0], facing 0.0, connected True,
flying False. -/
def SimulatedDrone.init : SimulatedDrone :=
  { x := 0, y := 0, z := 0, facing := 0, connected := true, flying := false }

/-- math.radians. -/
noncomputable def radians (v : ℝ) : ℝ := v * Real.pi / 180

/-- SimulatedDrone.connect: always succeeds. -/
def SimulatedDrone.connect (d : SimulatedDrone) : SimulatedDrone × Bool :=
  ({ d with connected := true }, true)

/-- SimulatedDrone.shutdown. -/
def SimulatedDrone.shutdown (d : SimulatedDrone) : SimulatedDrone :=
  { d with connected := false }

/-- SimulatedDrone.takeoff: always succeeds. -/
def SimulatedDrone.takeoff (d : SimulatedDrone) : SimulatedDrone × Bool :=
  ({ d with flying := true }, true)

/-- SimulatedDrone.land: always succeeds. -/
def SimulatedDrone.land (d : SimulatedDrone) : SimulatedDrone × Bool :=
  ({ d with flying := false }, true)

/-- SimulatedDrone.forward: displace by val along the facing. -/
noncomputable def SimulatedDrone.forward (v : ℝ) (d : SimulatedDrone) : SimulatedDrone × Bool :=
  ({ d with x := d.x + v * Real.cos d.facing, y := d.y + v * Real.sin d.facing }, true)

/-- SimulatedDrone.backward. -/
noncomputable def SimulatedDrone.backward (v : ℝ) (d : SimulatedDrone) : SimulatedDrone × Bool :=
  ({ d with x := d.x - v * Real.cos d.facing, y := d.y - v * Real.sin d.facing }, true)

/-- SimulatedDrone.left: displace along facing + 90 degrees. -/
noncomputable def SimulatedDrone.left (v : ℝ) (d : SimulatedDrone) : SimulatedDrone × Bool :=
  ({ d with x := d.x + v * Real.cos (d.facing + radians 90),
            y := d.y + v * Real.sin (d.facing + radians 90) }, true)

/-- SimulatedDrone.right: displace along facing - 90 degrees. -/
noncomputable def SimulatedDrone.right (v : ℝ) (d : SimulatedDrone) : SimulatedDrone × Bool :=
  ({ d with x := d.x + v * Real.cos (d.facing - radians 90),
            y := d.y + v * Real.sin (d.facing - radians 90) }, true)

/-- SimulatedDrone.up. -/
def SimulatedDrone.up (v : ℝ) (d : SimulatedDrone) : SimulatedDrone × Bool :=
  ({ d with z := d.z + v }, true)

/-- SimulatedDrone.down. -/
def SimulatedDrone.down (v : ℝ) (d : SimulatedDrone) : SimulatedDrone × Bool :=
  ({ d with z := d.z - v }, true)

/-- SimulatedDrone.rotate_cw (drone.py lines 466-468): facing -= radians(val). -/
noncomputable def SimulatedDrone.rotate_cw (v : ℝ) (d : SimulatedDrone) : SimulatedDrone × Bool :=
  ({ d with facing := d.facing - radians v }, true)

/-- SimulatedDrone.rotate_ccw (drone.py lines 470-472): facing -= radians(val),
the same update as rotate_cw (the source subtracts in both). -/
noncomputable def SimulatedDrone.rotate_ccw (v : ℝ) (d : SimulatedDrone) : SimulatedDrone × Bool :=
  ({ d with facing := d.facing - radians v }, true)

/-- SimulatedDrone.get_frame: np.zeros((100, 100, 3)), the canonical zero
frame. -/
def SimulatedDrone.get_frame (_ : SimulatedDrone) : Option Frame := some Frame.zeros

/-- SimulatedDrone.get_state (drone.py lines 477-478): returns self.location,
a PLAIN LIST - not a dict with a 'loc' key. -/
def SimulatedDrone.get_state (d : SimulatedDrone) : PyVal := PyVal.list [d.x, d.y, d.z]

/-- The external collaborators the VM consumes and does not implement: the
vision capability interface (facial_recognition.py wraps an external library)
and OpenCV's imread used by LOAD_PIC.  The VM's behavior is parameterized
over them; no settled claim reaches a call into them. -/
structure Collab where
  find_faces : Option Frame → List FaceDet
  encode_face : Option Frame → FaceDet → Option FaceEnc
  face_similarity : FaceEnc → FaceEnc → ℚ
  imread : String → Option Frame

/-- An arbitrary concrete collaborator instance used to state closed
theorems; the executions they evaluate never invoke any of its members. -/
def trivCollab : Collab :=
  { find_faces := fun _ => [],
    encode_face := fun _ _ => none,
    face_similarity := fun _ _ => 0,
    imread := fun _ => none }

/-- VM state: the DroneVM object's fields (drone_virtual_machine.py lines
28-62) plus the run_program locals (program_counter, and the jumped flag is
threaded through step results).  `shutdowns` instruments the number of
drone.shutdown() calls made, so that shutdown-on-error claims can be stated.
Stacks push/pop at the list head.  Return-register values are line indices
(naturals) in every reachable execution. -/
structure DroneVM where
  num_reg : List Value
  pic_reg : List (Option Frame)
  face_reg : List (Option FaceDet × Option FaceEnc)
  return_reg : Nat
  num_stack : List Value
  pic_stack : List (Option Frame)
  return_stack : List Nat
  drone_tracking : SimulatedDrone
  drone : SimulatedDrone
  drone_path : List PyVal
  shutdowns : Nat
  running : Bool
  pc : Nat

/-- The register/stack state DroneVM.__init__ and reset() set up: 16 zeroed
numeric registers, 8 empty picture registers, 8 empty face registers, empty
stacks, fresh simulated drone and shadow tracker.  The source additionally
seeds drone_path with get_state()['loc'][:], an expression that raises
TypeError because get_state returns a plain list (see DroneVM_init_path
below); drone_path is modelled empty here so the interpreter loop itself can
be studied. -/
def DroneVM.reset : DroneVM where
  num_reg := List.replicate 16 (Value.int 0)
  pic_reg := List.replicate 8 none
  face_reg := List.replicate 8 (none, none)
  return_reg := 0
  num_stack := []
  pic_stack := []
  return_stack := []
  drone_tracking := SimulatedDrone.init
  drone := SimulatedDrone.init
  drone_path := []
  shutdowns := 0
  running := false
  pc := 0

/-- The drone_path seed written by DroneVM.__init__ and reset():
`[self.drone_tracking.get_state()['loc'][:]]`.  get_state returns the bare
location list, so the 'loc' subscript raises TypeError. -/
def DroneVM_init_path : Except PyExc (List PyVal) :=
  match (SimulatedDrone.init.get_state).getItemStr "loc" with
  | .ok p => .ok [p]
  | .error e => .error e

/-- Result of executing one instruction: the new state, whether the
instruction changed the program counter (the source's `jumped` flag), and
the exception it raised, if any. -/
abbrev StepRes := DroneVM × Bool × Option PyExc

/-- Error message used by every register bound check in run_program. -/
def regMsg : String := "Attempted use of non-existent register."

/-- The shutdown-then-raise pattern: `self.drone.shutdown()` followed by
`raise ...`, the exit used by most fatal paths of run_program. -/
def shutdownRaise (s : DroneVM) (e : PyExc) : StepRes :=
  ({ s with drone := s.drone.shutdown, shutdowns := s.shutdowns + 1 }, false, some e)

/-- Raise without shutting the drone down, the exit actually used by the
LOAD_PIC, DETECT_FACE and MATCH_FACE error paths of run_program. -/
def raiseOnly (s : DroneVM) (e : PyExc) : StepRes := (s, false, some e)

/-- The operand-coercion block that run_program repeats at every numeric
operand site (e.g. drone_virtual_machine.py lines 487-516): a NumReg token
dereferences the register after a bound check, an IntNumber parses with
int(), a FloatNumber with float(), anything else is "Unknown value type.".
Errors returned here are raised by the source after a drone shutdown; see
resolve2. -/
def resolveNum (s : DroneVM) (t : Token) : Except PyExc Value :=
  match t.token_type with
  | .NumReg =>
      let r := pyInt t.value
      if 0 ≤ r ∧ r < (s.num_reg.length : Int) then .ok (s.num_reg.getD r.toNat (Value.int 0))
      else .error (.softwareError regMsg)
  | .IntNumber => .ok (.int (pyInt t.value))
  | .FloatNumber => .ok (.float (pyFloat t.value))
  | _ => .error (.softwareError "Unknown value type.")

/-- Resolve operand tokens 1 and 2 of the current line, shutting the drone
down and raising on any coercion failure, then continue.  Factors the operand
blocks the source duplicates verbatim across the branch and arithmetic
opcodes. -/
def resolve2 (s : DroneVM) (line : List Token) (k : Value → Value → StepRes) : StepRes :=
  match getTok line 1 with
  | .error e => raiseOnly s e
  | .ok t1 =>
      match resolveNum s t1 with
      | .error e => shutdownRaise s e
      | .ok v1 =>
          match getTok line 2 with
          | .error e => raiseOnly s e
          | .ok t2 =>
              match resolveNum s t2 with
              | .error e => shutdownRaise s e
              | .ok v2 => k v1 v2

/-- Python numeric coercion of a Value for comparison purposes; a picture
operand would make Python raise (numpy array truthiness), modelled as
TypeError. -/
def toRatE : Value → Except PyExc ℚ
  | .int z => .ok (z : ℚ)
  | .float q => .ok q
  | .pic _ => .error .typeError

/-- Python int(val): ints unchanged, floats truncated toward zero, pictures a
TypeError. -/
def pyIntOf : Value → Except PyExc Int
  | .int z => .ok z
  | .float q => .ok (q.num / (q.den : Int))
  | .pic _ => .error .typeError

/-- The `val2 != 0` test of the DIV case. -/
def pyNeZero : Value → Except PyExc Bool
  | .int z => .ok (decide (z ≠ 0))
  | .float q => .ok (decide (q ≠ 0))
  | .pic _ => .error .typeError

/-- Python +: int+int stays int, otherwise float; non-numeric operands raise
TypeError. -/
def pyAdd : Value → Value → Except PyExc Value
  | .int a, .int b => .ok (.int (a + b))
  | .int a, .float b => .ok (.float ((a : ℚ) + b))
  | .float a, .int b => .ok (.float (a + (b : ℚ)))
  | .float a, .float b => .ok (.float (a + b))
  | _, _ => .error .typeError

/-- Python binary -. -/
def pySub : Value → Value → Except PyExc Value
  | .int a, .int b => .ok (.int (a - b))
  | .int a, .float b => .ok (.float ((a : ℚ) - b))
  | .float a, .int b => .ok (.float (a - (b : ℚ)))
  | .float a, .float b => .ok (.float (a - b))
  | _, _ => .error .typeError

/-- Python binary *. -/
def pyMult : Value → Value → Except PyExc Value
  | .int a, .int b => .ok (.int (a * b))
  | .int a, .float b => .ok (.float ((a : ℚ) * b))
  | .float a, .int b => .ok (.float (a * (b : ℚ)))
  | .float a, .float b => .ok (.float (a * b))
  | _, _ => .error .typeError

/-- Python true division /: always float.  The DIV opcode only evaluates it
after its own val2 != 0 check, so the zero case is unreachable there. -/
def pyTrueDiv (a b : Value) : Except PyExc Value :=
  match toRatE a, toRatE b with
  | .ok x, .ok y => if y = 0 then .error .zeroDivisionError else .ok (.float (x / y))
  | .error e, _ => .error e
  | _, .error e => .error e

/-- Python floor division //: int//int stays int (floor), otherwise a float
floor; dividing by zero raises ZeroDivisionError (the IDIV case has no guard). -/
def pyFloorDiv : Value → Value → Except PyExc Value
  | .int a, .int b => if b = 0 then .error .zeroDivisionError else .ok (.int (Int.fdiv a b))
  | .int a, .float b => if b = 0 then .error .zeroDivisionError else .ok (.float ((⌊(a : ℚ) / b⌋ : Int) : ℚ))
  | .float a, .int b => if b = 0 then .error .zeroDivisionError else .ok (.float ((⌊a / (b : ℚ)⌋ : Int) : ℚ))
  | .float a, .float b => if b = 0 then .error .zeroDivisionError else .ok (.float ((⌊a / b⌋ : Int) : ℚ))
  | _, _ => .error .typeError

/-- Python modulo %: result carries the divisor's sign (floor-division
remainder); zero divisor raises ZeroDivisionError (the RDIV case has no
guard). -/
def pyMod : Value → Value → Except PyExc Value
  | .int a, .int b => if b = 0 then .error .zeroDivisionError else .ok (.int (Int.fmod a b))
  | .int a, .float b => if b = 0 then .error .zeroDivisionError else .ok (.float ((a : ℚ) - b * ((⌊(a : ℚ) / b⌋ : Int) : ℚ)))
  | .float a, .int b => if b = 0 then .error .zeroDivisionError else .ok (.float (a - (b : ℚ) * ((⌊a / (b : ℚ)⌋ : Int) : ℚ)))
  | .float a, .float b => if b = 0 then .error .zeroDivisionError else .ok (.float (a - b * ((⌊a / b⌋ : Int) : ℚ)))
  | _, _ => .error .typeError

/-- Sequential Python indexing of arguments 1 and 2 of a line. -/
def getTok2 (line : List Token) : Except PyExc (Token × Token) :=
  match getTok line 1 with
  | .error e => .error e
  | .ok t1 =>
      match getTok line 2 with
      | .error e => .error e
      | .ok t2 => .ok (t1, t2)

/-- Sequential Python indexing of arguments 1, 2 and 3 of a line. -/
def getTok3 (line : List Token) : Except PyExc (Token × Token × Token) :=
  match getTok2 line with
  | .error e => .error e
  | .ok (t1, t2) =>
      match getTok line 3 with
      | .error e => .error e
      | .ok t3 => .ok (t1, t2, t3)

/-- Shared shape of the ADD/SUB/MULT/IDIV/RDIV cases: resolve both operands
(shutdown on coercion failure), bound-check the destination register
(shutdown on failure), evaluate the Python operator and store; an exception
from the operator itself (TypeError, ZeroDivisionError) propagates without a
shutdown, as in the source. -/
def arithStore (s : DroneVM) (line : List Token) (f : Value → Value → Except PyExc Value) : StepRes :=
  resolve2 s line fun v1 v2 =>
    match getTok line 3 with
    | .error e => raiseOnly s e
    | .ok t3 =>
        let r := pyInt t3.value
        if 0 ≤ r ∧ r < (s.num_reg.length : Int) then
          match f v1 v2 with
          | .ok v => ({ s with num_reg := s.num_reg.set r.toNat v }, false, none)
          | .error e => raiseOnly s e
        else shutdownRaise s (.softwareError regMsg)

/-- Shared shape of the six BRANCH cases: resolve both operands, compare,
and jump to the label when the relation holds; an unresolved label raises
LabelNotFoundException with no shutdown, as in the source. -/
def branchCase (prog : Program) (s : DroneVM) (line : List Token) (rel : ℚ → ℚ → Bool) : StepRes :=
  resolve2 s line fun v1 v2 =>
    match toRatE v1 with
    | .error e => raiseOnly s e
    | .ok q1 =>
        match toRatE v2 with
        | .error e => raiseOnly s e
        | .ok q2 =>
            if rel q1 q2 then
              match getTok line 3 with
              | .error e => raiseOnly s e
              | .ok t3 =>
                  match prog.label_lookup t3.value with
                  | .ok idx => ({ s with pc := idx }, true, none)
                  | .error e => raiseOnly s e
            else (s, false, none)

/-- Shared shape of the eight movement/rotation cases (FORWARD ... ROTATE_CCW):
resolve the operand, truncate to int, run the motion on the vehicle, replay it
on the shadow tracker, then append get_state()['loc'][:] to the path history.
Because SimulatedDrone.get_state returns a plain list, that subscript raises
TypeError (after both drones have already moved), with no shutdown. -/
def moveCase (s : DroneVM) (line : List Token)
    (dm : ℝ → SimulatedDrone → SimulatedDrone × Bool) : StepRes :=
  match getTok line 1 with
  | .error e => raiseOnly s e
  | .ok t1 =>
      match resolveNum s t1 with
      | .error e => shutdownRaise s e
      | .ok v =>
          match pyIntOf v with
          | .error e => raiseOnly s e
          | .ok n =>
              let md := dm (n : ℝ) s.drone
              if md.2 then
                let mt := dm (n : ℝ) s.drone_tracking
                let s' := { s with drone := md.1, drone_tracking := mt.1 }
                match (mt.1.get_state).getItemStr "loc" with
                | .ok p => ({ s' with drone_path := s'.drone_path ++ [p] }, false, none)
                | .error e => raiseOnly s' e
              else shutdownRaise { s with drone := md.1 } (.hardwareError "Could not complete maneuver")

/-- Dispatch on the command token's text: the body of run_program's
`match current_line[0].value` (drone_virtual_machine.py lines 81-873).  The
source contains a second, dead `case "POP_NUM"` arm (lines 161-162, the one
that pops the return stack into the return register): Python match takes the
first arm, so it is omitted here, and POP_RETURN - which has no arm of its
own - reaches the wildcard, which shuts the drone down and raises "Unknown
command.". -/
noncomputable def execCmd (X : Collab) (prog : Program) (s : DroneVM)
    (line : List Token) (c : String) : StepRes :=
  match c with
  | "NOP" => (s, false, none)
  | "HALT" => ({ s with running := false }, true, none)
  | "STORE" =>
      match getTok line 1 with
      | .error e => raiseOnly s e
      | .ok t1 =>
          match (match t1.token_type with
                 | .IntNumber => Except.ok (Value.int (pyInt t1.value))
                 | .FloatNumber => Except.ok (Value.float (pyFloat t1.value))
                 | _ => Except.error (PyExc.softwareError "Unknown value type.")) with
          | .error e => shutdownRaise s e
          | .ok v =>
              match getTok line 2 with
              | .error e => raiseOnly s e
              | .ok t2 =>
                  let r := pyInt t2.value
                  if 0 ≤ r ∧ r < (s.num_reg.length : Int) then
                    ({ s with num_reg := s.num_reg.set r.toNat v }, false, none)
                  else shutdownRaise s (.softwareError regMsg)
  | "COPY" =>
      match getTok2 line with
      | .error e => raiseOnly s e
      | .ok (t1, t2) =>
          let r1 := pyInt t1.value
          let r2 := pyInt t2.value
          if 0 ≤ r1 ∧ r1 < (s.num_reg.length : Int) ∧ 0 ≤ r2 ∧ r2 < (s.num_reg.length : Int) then
            ({ s with num_reg := s.num_reg.set r2.toNat (s.num_reg.getD r1.toNat (Value.int 0)) }, false, none)
          else shutdownRaise s (.softwareError regMsg)
  | "COPY_PIC" =>
      match getTok2 line with
      | .error e => raiseOnly s e
      | .ok (t1, t2) =>
          let r1 := pyInt t1.value
          let r2 := pyInt t2.value
          if 0 ≤ r1 ∧ r1 < (s.pic_reg.length : Int) ∧ 0 ≤ r2 ∧ r2 < (s.pic_reg.length : Int) then
            ({ s with pic_reg := s.pic_reg.set r2.toNat (s.pic_reg.getD r1.toNat none) }, false, none)
          else shutdownRaise s (.softwareError regMsg)
  | "PUSH_NUM" =>
      match getTok line 1 with
      | .error e => raiseOnly s e
      | .ok t1 =>
          if t1.token_type = TokType.NumReg then
            let r := pyInt t1.value
            if 0 ≤ r ∧ r < (s.num_reg.length : Int) then
              ({ s with num_stack := s.num_reg.getD r.toNat (Value.int 0) :: s.num_stack }, false, none)
            else shutdownRaise s (.softwareError regMsg)
          else
            match (match t1.token_type with
                   | .IntNumber => Except.ok (Value.int (pyInt t1.value))
                   | .FloatNumber => Except.ok (Value.float (pyFloat t1.value))
                   | _ => Except.error (PyExc.softwareError "Unknown value type.")) with
            | .error e => shutdownRaise s e
            | .ok v => ({ s with num_stack := v :: s.num_stack }, false, none)
  | "PUSH_RETURN" =>
      match getTok line 1 with
      | .error e => raiseOnly s e
      | .ok t1 =>
          match prog.label_lookup t1.value with
          | .ok n => ({ s with return_stack := n :: s.return_stack }, false, none)
          | .error e => raiseOnly s e
  | "PUSH_PIC" =>
      match getTok line 1 with
      | .error e => raiseOnly s e
      | .ok t1 =>
          let r := pyInt t1.value
          if 0 ≤ r ∧ r < (s.pic_reg.length : Int) then
            ({ s with num_stack := Value.pic (s.pic_reg.getD r.toNat none) :: s.num_stack }, false, none)
          else shutdownRaise s (.softwareError regMsg)
  | "POP_NUM" =>
      match getTok line 1 with
      | .error e => raiseOnly s e
      | .ok t1 =>
          let r := pyInt t1.value
          if 0 ≤ r ∧ r < (s.num_reg.length : Int) then
            match s.num_stack with
            | [] => raiseOnly s .indexError
            | v :: rest => ({ s with num_reg := s.num_reg.set r.toNat v, num_stack := rest }, false, none)
          else shutdownRaise s (.softwareError regMsg)
  | "POP_PIC" =>
      match getTok line 1 with
      | .error e => raiseOnly s e
      | .ok t1 =>
          let r := pyInt t1.value
          if 0 ≤ r ∧ r < (s.pic_reg.length : Int) then
            match s.pic_stack with
            | [] => raiseOnly s .indexError
            | v :: rest => ({ s with pic_reg := s.pic_reg.set r.toNat v, pic_stack := rest }, false, none)
          else shutdownRaise s (.softwareError regMsg)
  | "BRANCH_EQ" => branchCase prog s line (fun a b => decide (a = b))
  | "BRANCH_NE" => branchCase prog s line (fun a b => decide (a ≠ b))
  | "BRANCH_GT" => branchCase prog s line (fun a b => decide (a > b))
  | "BRANCH_LT" => branchCase prog s line (fun a b => decide (a < b))
  | "BRANCH_GE" => branchCase prog s line (fun a b => decide (a ≥ b))
  | "BRANCH_LE" => branchCase prog s line (fun a b => decide (a ≤ b))
  | "JUMP" =>
      match getTok line 1 with
      | .error e => raiseOnly s e
      | .ok t1 =>
          match prog.label_lookup t1.value with
          | .ok idx => ({ s with pc := idx }, true, none)
          | .error e => raiseOnly s e
  | "JUMP_RETURN" => ({ s with pc := s.return_reg }, true, none)
  | "ADD" => arithStore s line pyAdd
  | "SUB" => arithStore s line pySub
  | "MULT" => arithStore s line pyMult
  | "DIV" =>
      resolve2 s line fun v1 v2 =>
        match getTok line 3 with
        | .error e => raiseOnly s e
        | .ok t3 =>
            let r := pyInt t3.value
            if 0 ≤ r ∧ r < (s.num_reg.length : Int) then
              match pyNeZero v2 with
              | .error e => raiseOnly s e
              | .ok true =>
                  match pyTrueDiv v1 v2 with
                  | .ok v => ({ s with num_reg := s.num_reg.set r.toNat v }, false, none)
                  | .error e => raiseOnly s e
              | .ok false => shutdownRaise s (.softwareError "Attempted to divide by zero.")
            else shutdownRaise s (.softwareError regMsg)
  | "IDIV" => arithStore s line pyFloorDiv
  | "RDIV" => arithStore s line pyMod
  | "TAKEOFF" =>
      let m := s.drone.takeoff
      if m.2 then ({ s with drone := m.1 }, false, none)
      else shutdownRaise { s with drone := m.1 } (.hardwareError "Could not complete maneuver")
  | "LAND" =>
      let m := s.drone.land
      if m.2 then ({ s with drone := m.1 }, false, none)
      else shutdownRaise { s with drone := m.1 } (.hardwareError "Could not complete maneuver")
  | "FORWARD" => moveCase s line SimulatedDrone.forward
  | "BACKWARD" => moveCase s line SimulatedDrone.backward
  | "LEFT" => moveCase s line SimulatedDrone.left
  | "RIGHT" => moveCase s line SimulatedDrone.right
  | "UP" => moveCase s line SimulatedDrone.up
  | "DOWN" => moveCase s line SimulatedDrone.down
  | "ROTATE_CW" => moveCase s line SimulatedDrone.rotate_cw
  | "ROTATE_CCW" => moveCase s line SimulatedDrone.rotate_ccw
  | "DISPLAY" =>
      match getTok line 1 with
      | .error e => raiseOnly s e
      | .ok t1 =>
          match t1.token_type with
          | .NumReg =>
              let r := pyInt t1.value
              if 0 ≤ r ∧ r < (s.num_reg.length : Int) then (s, false, none)
              else shutdownRaise s (.softwareError regMsg)
          | .PicReg =>
              let r := pyInt t1.value
              if 0 ≤ r ∧ r < (s.pic_reg.length : Int) then (s, false, none)
              else shutdownRaise s (.softwareError regMsg)
          | .IntNumber => (s, false, none)
          | .FloatNumber => (s, false, none)
          | .String => (s, false, none)
          | _ => shutdownRaise s (.softwareError "Attempted display of unknown value.")
  | "TAKE_PIC" =>
      match getTok line 1 with
      | .error e => raiseOnly s e
      | .ok t1 =>
          let r := pyInt t1.value
          if 0 ≤ r ∧ r < (s.pic_reg.length : Int) then
            raiseOnly s .attributeError
          else shutdownRaise s (.softwareError regMsg)
  | "LOAD_PIC" =>
      match getTok2 line with
      | .error e => raiseOnly s e
      | .ok (t1, t2) =>
          let r := pyInt t2.value
          if 0 ≤ r ∧ r < (s.pic_reg.length : Int) then
            ({ s with pic_reg := s.pic_reg.set r.toNat (X.imread t1.value) }, false, none)
          else raiseOnly s (.softwareError regMsg)
  | "DETECT_FACE" =>
      match getTok3 line with
      | .error e => raiseOnly s e
      | .ok (t1, t2, t3) =>
          let p_reg := pyInt t1.value
          let f_reg := pyInt t2.value
          let ret_reg := pyInt t3.value
          if ¬(0 ≤ p_reg ∧ p_reg < (s.pic_reg.length : Int)) then raiseOnly s (.softwareError regMsg)
          else if ¬(0 ≤ f_reg ∧ f_reg < (s.face_reg.length : Int)) then raiseOnly s (.softwareError regMsg)
          else if ¬(0 ≤ ret_reg ∧ ret_reg < (s.num_reg.length : Int)) then raiseOnly s (.softwareError regMsg)
          else
            let pic := s.pic_reg.getD p_reg.toNat none
            match X.find_faces pic with
            | f0 :: _ =>
                ({ s with num_reg := s.num_reg.set ret_reg.toNat (Value.int 1),
                          face_reg := s.face_reg.set f_reg.toNat (some f0, X.encode_face pic f0) },
                 false, none)
            | [] => ({ s with num_reg := s.num_reg.set ret_reg.toNat (Value.int 0) }, false, none)
  | "MATCH_FACE" =>
      match getTok3 line with
      | .error e => raiseOnly s e
      | .ok (t1, t2, t3) =>
          let f_reg1 := pyInt t1.value
          let f_reg2 := pyInt t2.value
          let ret_reg := pyInt t3.value
          if ¬(0 ≤ f_reg1 ∧ f_reg1 < (s.face_reg.length : Int)) then raiseOnly s (.softwareError regMsg)
          else if ¬(0 ≤ f_reg2 ∧ f_reg2 < (s.face_reg.length : Int)) then raiseOnly s (.softwareError regMsg)
          else if ¬(0 ≤ ret_reg ∧ ret_reg < (s.num_reg.length : Int)) then raiseOnly s (.softwareError regMsg)
          else
            match (s.face_reg.getD f_reg1.toNat (none, none)).2,
                  (s.face_reg.getD f_reg2.toNat (none, none)).2 with
            | some e1, some e2 =>
                ({ s with num_reg := s.num_reg.set ret_reg.toNat (Value.float (X.face_similarity e1 e2)) },
                 false, none)
            | _, _ => raiseOnly s (.softwareError "Attempted to use empty face register.")
  | _ => shutdownRaise s (.softwareError "Unknown command.")

/-- One iteration of run_program's while loop: halt normally once the program
counter passes the last line, otherwise dispatch on the fetched line and
advance the program counter unless the instruction jumped. -/
noncomputable def stepOnce (X : Collab) (prog : Program) (s : DroneVM) : DroneVM × Option PyExc :=
  if prog.line_count ≤ s.pc then ({ s with running := false }, none)
  else
    match prog.get_line s.pc with
    | none => (s, some .indexError)
    | some line =>
        match line with
        | [] => (s, some .indexError)
        | t0 :: _ =>
            match execCmd X prog s line t0.value with
            | (s', _, some e) => (s', some e)
            | (s', jumped, none) => if jumped then (s', none) else ({ s' with pc := s'.pc + 1 }, none)

/-- The while loop of run_program, fuel-bounded: on an exception the state at
raise time is returned together with the exception (the Python VM object
retains its state when run_program raises).  Every theorem below supplies
enough fuel for its execution to finish. -/
noncomputable def runLoop (X : Collab) (prog : Program) : Nat → DroneVM → DroneVM × Option PyExc
  | 0, s => (s, none)
  | n + 1, s =>
      if s.running then
        match stepOnce X prog s with
        | (s', some e) => (s', some e)
        | (s', none) => runLoop X prog n s'
      else (s, none)

/-- run_program (drone_virtual_machine.py lines 64-878) on a simulated
vehicle, starting from the given VM state: set running, connect (which always
succeeds for the simulated drone), run the loop; on normal exit shut the
drone down once; on an exception the loop's state and exception are returned
as raised. -/
noncomputable def DroneVM.run_program (X : Collab) (prog : Program) (fuel : Nat)
    (s : DroneVM) : DroneVM × Option PyExc :=
  let s := { s with running := true, pc := 0 }
  let m := s.drone.connect
  if m.2 then
    match runLoop X prog fuel { s with drone := m.1 } with
    | (s', some e) => (s', some e)
    | (s', none) => ({ s' with drone := s'.drone.shutdown, shutdowns := s'.shutdowns + 1 }, none)
  else
    ({ s with drone := m.1.shutdown, shutdowns := s.shutdowns + 1 },
     some (.hardwareError "Unable to connect to drone."))

/-- The compiled form of ["MATCH_FACE 0 1 0"]. -/
def matchFaceProg : Program :=
  ⟨[], [[⟨.Command, "MATCH_FACE"⟩, ⟨.IntNumber, "0"⟩, ⟨.IntNumber, "1"⟩, ⟨.IntNumber, "0"⟩]]⟩

/-- The compiled form of ["POP_RETURN"]. -/
def popReturnProg : Program := ⟨[], [[⟨.Command, "POP_RETURN"⟩]]⟩

/-- The compiled form of ["DIV $R0 0 $R99"]. -/
def divR99Prog : Program :=
  ⟨[], [[⟨.Command, "DIV"⟩, ⟨.NumReg, "0"⟩, ⟨.IntNumber, "0"⟩, ⟨.NumReg, "99"⟩]]⟩

/-- The compiled form of ["JUMP NOTALABEL"]. -/
def jumpProg : Program := ⟨[], [[⟨.Command, "JUMP"⟩, ⟨.Identifier, "NOTALABEL"⟩]]⟩

/-- The compiled form of ["FORWARD 50"]. -/
def forwardProg : Program := ⟨[], [[⟨.Command, "FORWARD"⟩, ⟨.IntNumber, "50"⟩]]⟩

/-- Whether an execution outcome is a RuntimeSoftwareErrorException. -/
def isSoftwareExc : Option PyExc → Bool
  | some (.softwareError _) => true
  | _ => false

/-- C1: the claim says every run that raises a runtime SoftwareError or
HardwareError performs exactly one vehicle shutdown first.  The code violates
it: the MATCH_FACE empty-face-register path (and likewise the LOAD_PIC /
DETECT_FACE / MATCH_FACE register-bound paths) raises
RuntimeSoftwareErrorException without ever calling drone.shutdown().  Running
the compiled ["MATCH_FACE 0 1 0"] on a fresh VM raises the empty-face
SoftwareError with zero shutdown calls. -/
theorem matchface_error_without_shutdown :
    compile ["MATCH_FACE 0 1 0"] = .ok matchFaceProg ∧
    (DroneVM.run_program trivCollab matchFaceProg 4 DroneVM.reset).2 =
      some (.softwareError "Attempted to use empty face register.") ∧
    (DroneVM.run_program trivCollab matchFaceProg 4 DroneVM.reset).1.shutdowns = 0 :=
  ⟨rfl, rfl, rfl⟩

/-- C2: the claim says POP_RETURN pops the return-address stack into the
return register and raises no unknown-command error.  In the source the
dispatch arm meant for POP_RETURN is written `case "POP_NUM"` (a duplicate of
the live POP_NUM arm, hence dead), so POP_RETURN reaches the wildcard: the
drone is shut down and "Unknown command." is raised, the return register and
return stack untouched. -/
theorem pop_return_unknown_command :
    compile ["POP_RETURN"] = .ok popReturnProg ∧
    (DroneVM.run_program trivCollab popReturnProg 4 DroneVM.reset).2 =
      some (.softwareError "Unknown command.") ∧
    (DroneVM.run_program trivCollab popReturnProg 4 DroneVM.reset).1.shutdowns = 1 ∧
    (DroneVM.run_program trivCollab popReturnProg 4 DroneVM.reset).1.return_reg = 0 ∧
    (DroneVM.run_program trivCollab popReturnProg 4 DroneVM.reset).1.return_stack = [] :=
  ⟨rfl, rfl, rfl, rfl, rfl⟩

/-- C3: the claim says empty lines and bare-label lines compile to a stored
no-op.  Program.add_line indeed stores a no-op for both shapes, but compile
validates first, and validate_line subscripts tokens[0] (resp.
tokens[label_offset]) on the too-short token list, raising an uncaught
IndexError: compiling [""] or ["LOOP:"] fails instead of storing a no-op. -/
theorem empty_and_label_lines_fail_compile :
    compile [""] = .error .indexError ∧
    compile ["LOOP:"] = .error .indexError ∧
    Program.add_line {} [] = ⟨[], [[nopToken]]⟩ ∧
    Program.add_line {} [⟨.Label, "LOOP"⟩] = ⟨[("LOOP", 0)], [[nopToken]]⟩ :=
  ⟨rfl, rfl, rfl, rfl⟩

/-- C4: the claim says PUSH_PIC / POP_PIC / TAKE_PIC reject a non
PictureRegister argument with an invalid-argument-type ValidationError.  The
source's arm `case "PUSH_PIC", "POP_PIC", "TAKE_PIC":` is a sequence pattern
that a str subject never matches, so the type check never runs and the
validator accepts an IntNumber (or any other) argument for all three
opcodes; ["PUSH_PIC 5"] even compiles end to end. -/
theorem pic_opcodes_type_check_dead :
    validate_line [⟨.Command, "PUSH_PIC"⟩, ⟨.IntNumber, "5"⟩] = .ok () ∧
    validate_line [⟨.Command, "POP_PIC"⟩, ⟨.IntNumber, "5"⟩] = .ok () ∧
    validate_line [⟨.Command, "TAKE_PIC"⟩, ⟨.String, "X"⟩] = .ok () ∧
    compile ["PUSH_PIC 5"] = .ok ⟨[], [[⟨.Command, "PUSH_PIC"⟩, ⟨.IntNumber, "5"⟩]]⟩ :=
  ⟨rfl, rfl, rfl, rfl⟩

/-- C5 counterexample: a NOP invocation with four arguments.  Four is larger
than every ARGS_DICT key, so `ARGS_DICT[4]` raises a KeyError - not the
invalid-argument-count ValidationError the claim requires for every wrong
argument count. -/
theorem arity_overflow_keyerror :
    validate_line [⟨.Command, "NOP"⟩, ⟨.IntNumber, "1"⟩, ⟨.IntNumber, "1"⟩,
        ⟨.IntNumber, "1"⟩, ⟨.IntNumber, "1"⟩] = .error .keyError ∧
    PyExc.keyError ≠ PyExc.validationError "Invalid number of arguments for specified command." :=
  ⟨rfl, by decide⟩

/-- C5 amended: for every declared opcode and every tokenized line (with or
without a leading label) whose argument count n is one of the arity table's
keys (n ≤ 3) but whose bucket does not contain the opcode, validate_line
rejects with the invalid-argument-count ValidationError.  (For n larger than
every key the source instead raises an uncaught KeyError - see the
counterexample.) -/
theorem validate_line_arity_reject (pre : List Token) (c : String) (args : List Token)
    (hpre : pre = [] ∨ ∃ lab : String, pre = [⟨TokType.Label, lab⟩])
    (hc : c ∈ COMMAND_LIST) (bucket : List String)
    (hb : ARGS_DICT args.length = some bucket) (hnot : c ∉ bucket) :
    validate_line (pre ++ ⟨TokType.Command, c⟩ :: args) =
      .error (.validationError "Invalid number of arguments for specified command.") := by
  rcases hpre with h | ⟨lab, h⟩ <;> subst h
  · have e1 : validate_line ([] ++ ⟨TokType.Command, c⟩ :: args) =
        (match ARGS_DICT args.length with
         | none => Except.error PyExc.keyError
         | some bucket =>
            if c ∈ bucket then checkArgTypes c args
            else Except.error
              (PyExc.validationError "Invalid number of arguments for specified command.")) := rfl
    rw [e1, hb]
    dsimp only
    rw [if_neg hnot]
  · have e1 : validate_line
        ([⟨TokType.Label, lab⟩] ++ ⟨TokType.Command, c⟩ :: args) =
        (match ARGS_DICT args.length with
         | none => Except.error PyExc.keyError
         | some bucket =>
            if c ∈ bucket then checkArgTypes c args
            else Except.error
              (PyExc.validationError "Invalid number of arguments for specified command.")) := rfl
    rw [e1, hb]
    dsimp only
    rw [if_neg hnot]

/-- C5 witness: NOP (a declared zero-argument opcode) invoked with one
argument is rejected with the invalid-argument-count ValidationError. -/
theorem validate_line_arity_reject_witness :
    validate_line [⟨TokType.Command, "NOP"⟩, ⟨TokType.IntNumber, "1"⟩] =
      .error (.validationError "Invalid number of arguments for specified command.") :=
  validate_line_arity_reject [] "NOP" [⟨TokType.IntNumber, "1"⟩]
    (Or.inl rfl) (by decide) ARGS_DICT_1 rfl (by decide)

/-- C6 counterexample: DIV $R0 0 $R99 - operand b is the literal 0, yet the
raised SoftwareError is the non-existent-register one, not a divide-by-zero
message, because the destination bound check precedes the zero check. -/
theorem div_zero_out_of_range_dest :
    compile ["DIV $R0 0 $R99"] = .ok divR99Prog ∧
    (DroneVM.run_program trivCollab divR99Prog 4 DroneVM.reset).2 =
      some (.softwareError regMsg) ∧
    PyExc.softwareError regMsg ≠ PyExc.softwareError "Attempted to divide by zero." :=
  ⟨rfl, rfl, by decide⟩

/-- C6 amended: executing DIV a b dest where both operands resolve and b
resolves to zero AND the destination register index is in range raises the
divide-by-zero SoftwareError after exactly one drone shutdown, and leaves
every numeric register (indeed the whole register/stack state) unchanged;
in this exact-arithmetic model no NaN or infinity exists to be produced. -/
theorem div_by_zero_shutdown (X : Collab) (prog : Program) (s : DroneVM) (ta tb td : Token)
    (va vb : Value) (ha : resolveNum s ta = .ok va) (hb : resolveNum s tb = .ok vb)
    (hz : pyNeZero vb = .ok false)
    (hr : 0 ≤ pyInt td.value ∧ pyInt td.value < (s.num_reg.length : Int)) :
    execCmd X prog s [⟨TokType.Command, "DIV"⟩, ta, tb, td] "DIV" =
      ({ s with drone := s.drone.shutdown, shutdowns := s.shutdowns + 1 }, false,
        some (.softwareError "Attempted to divide by zero.")) := by
  have e1 : execCmd X prog s [⟨TokType.Command, "DIV"⟩, ta, tb, td] "DIV" =
      resolve2 s [⟨TokType.Command, "DIV"⟩, ta, tb, td] (fun v1 v2 =>
        if 0 ≤ pyInt td.value ∧ pyInt td.value < (s.num_reg.length : Int) then
          match pyNeZero v2 with
          | .error e => raiseOnly s e
          | .ok true =>
              match pyTrueDiv v1 v2 with
              | .ok v => ({ s with num_reg := s.num_reg.set (pyInt td.value).toNat v }, false, none)
              | .error e => raiseOnly s e
          | .ok false => shutdownRaise s (.softwareError "Attempted to divide by zero.")
        else shutdownRaise s (.softwareError regMsg)) := rfl
  rw [e1]
  have e2 : resolve2 s [⟨TokType.Command, "DIV"⟩, ta, tb, td] = fun k =>
      (match resolveNum s ta with
       | .error e => shutdownRaise s e
       | .ok v1 =>
          match resolveNum s tb with
          | .error e => shutdownRaise s e
          | .ok v2 => k v1 v2) := rfl
  rw [e2, ha, hb]
  simp only [hz, if_pos hr]
  rfl

/-- C6 witness: DIV 4 0 $R1 on a fresh VM state raises the divide-by-zero
SoftwareError with one shutdown and no register write. -/
theorem div_by_zero_shutdown_witness :
    execCmd trivCollab popReturnProg DroneVM.reset
      [⟨TokType.Command, "DIV"⟩, ⟨TokType.IntNumber, "4"⟩, ⟨TokType.IntNumber, "0"⟩,
        ⟨TokType.NumReg, "1"⟩] "DIV" =
      ({ DroneVM.reset with
          drone := DroneVM.reset.drone.shutdown,
          shutdowns := DroneVM.reset.shutdowns + 1 }, false,
        some (.softwareError "Attempted to divide by zero.")) :=
  div_by_zero_shutdown trivCollab popReturnProg DroneVM.reset
    ⟨TokType.IntNumber, "4"⟩ ⟨TokType.IntNumber, "0"⟩ ⟨TokType.NumReg, "1"⟩
    (Value.int 4) (Value.int 0) rfl rfl rfl (by decide)

/-- C7 counterexample: running the compiled ["JUMP NOTALABEL"] does not raise
a RuntimeSoftwareErrorException; Program.label_lookup's LabelNotFoundException
propagates unconverted (and, incidentally, without a drone shutdown). -/
theorem jump_unresolved_not_software :
    compile ["JUMP NOTALABEL"] = .ok jumpProg ∧
    isSoftwareExc (DroneVM.run_program trivCollab jumpProg 4 DroneVM.reset).2 = false :=
  ⟨rfl, rfl⟩

/-- C7 amended: ["JUMP NOTALABEL"] compiles without error (label resolution
is not attempted at compile time), and executing the compiled program raises
a LabelNotFoundException for the unresolved label at execution time. -/
theorem jump_unresolved_label_runtime :
    compile ["JUMP NOTALABEL"] = .ok jumpProg ∧
    (DroneVM.run_program trivCollab jumpProg 4 DroneVM.reset).2 =
      some (.labelNotFound "Cannot find label NOTALABEL.") :=
  ⟨rfl, rfl⟩

/-- C8: the claim says running compiled ["FORWARD 50"] appends exactly one
point to a path history seeded at construction.  The code cannot do either:
SimulatedDrone.get_state returns the bare location list, so the
get_state()['loc'] subscript raises TypeError - already when DroneVM.__init__
seeds the path, and again at the FORWARD path append - and no point is ever
seeded or appended. -/
theorem forward_path_append_typeerror :
    DroneVM_init_path = .error .typeError ∧
    compile ["FORWARD 50"] = .ok forwardProg ∧
    (DroneVM.run_program trivCollab forwardProg 4 DroneVM.reset).2 = some .typeError ∧
    (DroneVM.run_program trivCollab forwardProg 4 DroneVM.reset).1.drone_path = [] :=
  ⟨rfl, rfl, rfl, rfl⟩

/-- The tokenizer example line of the spec (claim C9). -/
def exampleLine : String :=
  "MARK1: JUMP 12.3 -3.4 +3.14 MARK2 -13 +16 $R6 $P6 \"Hello, World!\""

/-- The token sequence claim C9 asserts for exampleLine. -/
def exampleClaimed : List Token :=
  [⟨.Label, "MARK1"⟩, ⟨.Command, "JUMP"⟩, ⟨.FloatNumber, "12.3"⟩, ⟨.FloatNumber, "-3.4"⟩,
   ⟨.FloatNumber, "+3.14"⟩, ⟨.Identifier, "MARK2"⟩, ⟨.IntNumber, "-13"⟩, ⟨.IntNumber, "+16"⟩,
   ⟨.NumReg, "6"⟩, ⟨.PicReg, "6"⟩, ⟨.String, "Hello, World!"⟩]

/-- The token sequence the tokenizer actually produces for exampleLine: the
same, except the string literal body is upper-cased, because tokenize calls
line.upper() on the whole line before running the FSM. -/
def exampleActual : List Token :=
  [⟨.Label, "MARK1"⟩, ⟨.Command, "JUMP"⟩, ⟨.FloatNumber, "12.3"⟩, ⟨.FloatNumber, "-3.4"⟩,
   ⟨.FloatNumber, "+3.14"⟩, ⟨.Identifier, "MARK2"⟩, ⟨.IntNumber, "-13"⟩, ⟨.IntNumber, "+16"⟩,
   ⟨.NumReg, "6"⟩, ⟨.PicReg, "6"⟩, ⟨.String, "HELLO, WORLD!"⟩]

/-- C9 counterexample: tokenize does not return the claimed sequence - the
String token comes back as "HELLO, WORLD!", not "Hello, World!". -/
theorem tokenize_example_line_claimed_false :
    tokenize exampleLine ≠ .ok exampleClaimed := by
  intro h
  have h2 : (Except.ok exampleActual : Except PyExc (List Token)) = .ok exampleClaimed :=
    ((by rfl : tokenize exampleLine = Except.ok exampleActual).symm).trans h
  have h3 : exampleActual = exampleClaimed := by injection h2
  exact absurd h3 (by decide)

/-- C9 amended: tokenize on the example line returns exactly the claimed
token kinds and values, except that the String token's text is upper-cased
to "HELLO, WORLD!" (the whole line, string literal bodies included, is
upper-cased before the FSM runs). -/
theorem tokenize_example_line : tokenize exampleLine = .ok exampleActual := rfl

/-- C10 amended: for every angle v, rotate_cw and rotate_ccw perform the
identical heading update (both subtract radians(v)), and for every v ≠ 0 a
ROTATE_CW v followed by a ROTATE_CCW v does NOT restore the heading (the net
change is -2·radians(v)); at v = 0 both rotations are the identity, so the
heading trivially is restored (see the counterexample). -/
theorem rotate_cw_ccw_identical (v : ℝ) (d : SimulatedDrone) :
    SimulatedDrone.rotate_cw v d = SimulatedDrone.rotate_ccw v d ∧
    (v ≠ 0 →
      ((SimulatedDrone.rotate_ccw v (SimulatedDrone.rotate_cw v d).1).1.facing ≠ d.facing)) := by
  refine ⟨rfl, fun hv h => hv ?_⟩
  simp only [SimulatedDrone.rotate_cw, SimulatedDrone.rotate_ccw, radians] at h
  have hpi : v * Real.pi = 0 := by linarith
  rcases mul_eq_zero.mp hpi with h0 | h0
  · exact h0
  · exact absurd h0 Real.pi_ne_zero

/-- C10 counterexample: at v = 0 the pair CW-then-CCW DOES restore the
heading, so the claim's universally quantified "does not restore" fails. -/
theorem rotate_zero_restores :
    (SimulatedDrone.rotate_ccw 0 (SimulatedDrone.rotate_cw 0 SimulatedDrone.init).1).1.facing
      = SimulatedDrone.init.facing := by
  simp [SimulatedDrone.rotate_cw, SimulatedDrone.rotate_ccw, radians, SimulatedDrone.init]

/-- C10 witness: at v = 90 both rotations agree and the CW/CCW pair does not
restore the initial heading. -/
theorem rotate_cw_ccw_identical_witness :
    (SimulatedDrone.rotate_cw 90 SimulatedDrone.init
        = SimulatedDrone.rotate_ccw 90 SimulatedDrone.init) ∧
    (SimulatedDrone.rotate_ccw 90 (SimulatedDrone.rotate_cw 90 SimulatedDrone.init).1).1.facing
      ≠ SimulatedDrone.init.facing :=
  ⟨(rotate_cw_ccw_identical 90 SimulatedDrone.init).1,
   (rotate_cw_ccw_identical 90 SimulatedDrone.init).2 (by norm_num)⟩
